import Mathlib

/-!
Verification of the sandboxed code-execution subsystem of the oinkerui
backend (`src/backend_python/src`): the path validator
(`core/path_validator.py`), the environment manager
(`services/sandbox_service.py`) and the execution engine
(`services/execution_service.py`).

The Python code is shallowly embedded: filesystem state and the outcomes of
external processes appear as explicit parameters, `os.path.realpath` is an
abstract canonicalization function, exceptions become an `Except` error sum,
and Python `str` values are Lean `String`s (sequences of code points, as in
Python; `s[:n]` is `s.data.take n`).
-/

/-- Error sum covering the exception classes raised by the embedded code:
`PathValidationError` (core/path_validator.py), `ExecutionError` and
`ExecutionSecurityError` (services/execution_service.py), and
`SandboxError` (services/sandbox_service.py). -/
inductive ExecError where
  | pathValidationError (msg : String)
  | executionError (msg : String)
  | executionSecurityError (msg : String)
  | sandboxError (msg : String)
deriving DecidableEq, Repr

/-- Message carried by an error, Python `str(e)`. -/
def ExecError.msg : ExecError → String
  | .pathValidationError m => m
  | .executionError m => m
  | .executionSecurityError m => m
  | .sandboxError m => m

/-- Python `s.startswith(pre)`: code-point prefix test. -/
def str_startswith (s pre : String) : Bool :=
  pre.data.isPrefixOf s.data

/-- Python `s.endswith(suf)`: code-point suffix test. -/
def str_endswith (s suf : String) : Bool :=
  suf.data.isSuffixOf s.data

/-- POSIX `os.path.join(b, p)`: an absolute `p` replaces `b`, otherwise the
two are joined with the separator. -/
def os_join (b p : String) : String :=
  if str_startswith p "/" then p
  else if str_endswith b "/" then b ++ p
  else b ++ "/" ++ p

/-- Embedding of `validate_path(path, base_dir)` from
`core/path_validator.py`. `rp` stands for `os.path.realpath`, the
canonicalization of a path (resolving `.`, `..` and symlinks); it is a
parameter of the embedding. The check is exactly the source's:
`target_real.startswith(base_real + os.sep) or target_real == base_real`. -/
def validate_path (rp : String → String) (path base_dir : String) :
    Except ExecError String :=
  let base_real := rp base_dir
  let target_real := rp (os_join base_dir path)
  if ¬ (str_startswith target_real (base_real ++ "/")) ∧ target_real ≠ base_real then
    .error (.pathValidationError
      ("Path '" ++ path ++ "' resolves outside project directory"))
  else
    .ok target_real

/-- Embedding of `validate_project_path(project_path)` from
`core/path_validator.py`. `path_exists` and `is_dir` stand for
`os.path.exists` and `os.path.isdir` on the current filesystem. -/
def validate_project_path (rp : String → String)
    (path_exists is_dir : String → Bool) (project_path : String) :
    Except ExecError String :=
  let real_path := rp project_path
  if ¬ path_exists real_path then
    .error (.pathValidationError ("Project path does not exist: " ++ project_path))
  else if ¬ is_dir real_path then
    .error (.pathValidationError ("Project path is not a directory: " ++ project_path))
  else
    .ok real_path

/-- Embedding of `SandboxManager.create_sandbox_env(project_path)` from
`services/sandbox_service.py`. The host process environment (`os.environ`)
is passed explicitly as `host_env` to make the ambient state visible; the
source function never reads it — it returns a fixed literal dict. -/
def create_sandbox_env (host_env : List (String × String))
    (project_path : String) : List (String × String) :=
  [("PATH", "/usr/bin:/bin:/usr/local/bin"),
   ("HOME", project_path),
   ("PYTHONPATH", ""),
   ("PROJECT_ROOT", project_path),
   ("LANG", "C.UTF-8"),
   ("LC_ALL", "C.UTF-8"),
   ("http_proxy", ""),
   ("https_proxy", "")]

/-- Lookup in an association-list environment map (Python `d.get(k)`). -/
def env_lookup (d : List (String × String)) (k : String) : Option String :=
  (d.find? (fun kv => kv.1 == k)).map (fun kv => kv.2)

mutual
/-- A directory tree as seen by `os.walk`: named subdirectories and files.
Each file carries `some mtime` when `os.path.getmtime` succeeds, `none`
when it raises `OSError`. -/
inductive FSTree where
  | mk (subdirs : FSForest) (files : List (String × Option Nat))

/-- The list of named subdirectories of a directory. -/
inductive FSForest where
  | nil
  | cons (name : String) (tree : FSTree) (rest : FSForest)
end

/-- The pruning test of `snapshot_files`:
`not d.startswith(".") and d != "__pycache__"`. -/
def keep_dir (d : String) : Bool :=
  !(str_startswith d ".") && (d != "__pycache__")

/-- Relative-path join used to build `os.path.relpath(path, directory)`
values while walking: at the top level the relative path is the file name
itself. -/
def rel_join (base name : String) : String :=
  if base = "" then name else base ++ "/" ++ name

mutual
/-- Walk of one directory of the tree, accumulating the project-relative
path prefix in `base`: the loop body of `snapshot_files` in
`services/execution_service.py`. Files whose `getmtime` raises (`none`)
are skipped by the inner `except OSError: pass`; pruned directories are
not descended into (`dirs[:] = [...]`). -/
def snapshotTree (base : String) : FSTree → List (String × Nat)
  | .mk subdirs files =>
    files.filterMap (fun fm => fm.2.map (fun m => (rel_join base fm.1, m))) ++
      snapshotForest base subdirs

/-- Walk of the subdirectory list, descending only into kept directories. -/
def snapshotForest (base : String) : FSForest → List (String × Nat)
  | .nil => []
  | .cons d t rest =>
    (if keep_dir d then snapshotTree (rel_join base d) t else []) ++
      snapshotForest base rest
end

/-- Embedding of `snapshot_files(directory)` from
`services/execution_service.py`. The argument is `none` when the directory
cannot be walked at all (`os.walk` fails with `OSError`, caught by the
outer `except OSError: pass`, leaving the snapshot empty). -/
def snapshot_files (directory : Option FSTree) : List (String × Nat) :=
  match directory with
  | none => []
  | some t => snapshotTree "" t

mutual
/-- Removes from a tree every file whose metadata read fails: the tree
`snapshot_files` effectively sees. -/
def eraseErrorsTree : FSTree → FSTree
  | .mk subdirs files =>
    .mk (eraseErrorsForest subdirs) (files.filter (fun fm => fm.2.isSome))

/-- Removes metadata-error files in every subdirectory. -/
def eraseErrorsForest : FSForest → FSForest
  | .nil => .nil
  | .cons d t rest => .cons d (eraseErrorsTree t) (eraseErrorsForest rest)
end

/-- Lookup of a key in a snapshot dict (Python `before[path]` /
`path in before`). -/
def dict_lookup (d : List (String × Nat)) (k : String) : Option Nat :=
  (d.find? (fun kv => kv.1 == k)).map (fun kv => kv.2)

/-- The loop condition of `diff_files`:
`path not in before or before[path] != mtime`. -/
def diff_pred (before : List (String × Nat)) (kv : String × Nat) : Bool :=
  match dict_lookup before kv.1 with
  | none => true
  | some m => m != kv.2

/-- Embedding of `diff_files(before, after)` from
`services/execution_service.py`: keep each `after` entry whose path is
absent from `before` or has a different mtime, then sort the paths
(Python `sorted` on strings orders lexicographically by code point, as
does Lean's `String` order). -/
def diff_files (before after : List (String × Nat)) : List String :=
  List.insertionSort (· ≤ ·)
    ((after.filter (diff_pred before)).map (fun kv => kv.1))

/-- MAX_OUTPUT_SIZE constant of `services/execution_service.py`. -/
def MAX_OUTPUT_SIZE : Nat := 100000

/-- Python `s[:MAX_OUTPUT_SIZE]` on a `str`: takes the first
`MAX_OUTPUT_SIZE` code points (not bytes). -/
def truncate_output (s : String) : String :=
  String.mk (s.data.take MAX_OUTPUT_SIZE)

/-- UTF-8 byte length of a string, `len(s.encode("utf-8"))`. -/
def utf8ByteLen (s : String) : Nat :=
  (s.data.map Char.utf8Size).sum

/-- The synthesized timeout message
`f"Execution timed out after {timeout}s"`. -/
def timeout_msg (t : Nat) : String :=
  "Execution timed out after " ++ toString t ++ "s"

/-- Python `not code.strip()`: true when the code is empty or all
whitespace. -/
def code_is_blank (s : String) : Bool :=
  s.data.all (fun c => c.isWhitespace)

/-- The venv directory of a project,
`os.path.join(project_path, ".venv")`. -/
def venv_path_of (project_path : String) : String :=
  project_path ++ "/.venv"

/-- The managed interpreter of a project,
`os.path.join(venv_path, "bin", "python")`. -/
def python_path_of (project_path : String) : String :=
  project_path ++ "/.venv/bin/python"

/-- POSIX `os.path.dirname`: everything before the last separator. -/
def os_dirname (s : String) : String :=
  String.intercalate "/" (s.splitOn "/").dropLast

/-- The in-memory sandbox object built by `SandboxManager`
(`services/sandbox_service.py`): the dict with keys `id`, `project_path`,
`venv_path`, `python_path`, `created_at`, `status`. -/
structure Sandbox where
  id : String
  project_path : String
  venv_path : String
  python_path : String
  created_at : Option String
  status : String
deriving DecidableEq, Repr

/-- Content of the `sandbox.json` sidecar file as read by `_load_sandbox`:
each field is optional because the source reads it with `metadata.get`. -/
structure SandboxMeta where
  id : Option String
  created_at : Option String
deriving DecidableEq, Repr

/-- On-disk state at a project's canonical path, as consulted by
`SandboxManager.create_sandbox`: existence and directory-ness of the
project itself, existence of the `.venv` directory and of its interpreter
executable, and the parsed `sandbox.json` (`none` when the file is
absent). -/
structure ProjFS where
  project_exists : Bool
  project_is_dir : Bool
  venv_exists : Bool
  python_exists : Bool
  metadata : Option SandboxMeta
deriving DecidableEq, Repr

/-- Outcomes of the external effects of one `create_sandbox` call: the
fresh `uuid.uuid4()` value, `datetime.now().isoformat()`, and whether the
venv-creation, pip self-upgrade and package-install subprocesses succeed.
The pip self-upgrade outcome is recorded but never branched on: the source
catches and ignores its failures. -/
structure SandboxEffects where
  fresh_id : String
  now : String
  venv_create_ok : Bool
  pip_upgrade_ok : Bool
  pip_install_ok : Bool
deriving DecidableEq, Repr

/-- Observable events of one `create_sandbox` call: whether the
venv-creation primitive ran, whether `shutil.rmtree` removed the venv
directory, and whether `sandbox.json` was read from disk. -/
structure SandboxEvents where
  invoked_creation : Bool
  removed_venv : Bool
  loaded_metadata : Bool
deriving DecidableEq, Repr

/-- Result of a successful `create_sandbox` call: the returned sandbox,
the updated in-memory cache, the updated on-disk state, and the event
record. -/
structure SandboxResult where
  sandbox : Sandbox
  cache : List (String × Sandbox)
  fs : ProjFS
  events : SandboxEvents
deriving DecidableEq, Repr

/-- Lookup in the manager's `self._cache` dict keyed by canonical project
path; insertion is modelled by consing, so the most recent binding wins. -/
def lookup_cache (c : List (String × Sandbox)) (k : String) : Option Sandbox :=
  (c.find? (fun kv => kv.1 == k)).map (fun kv => kv.2)

/-- Embedding of `SandboxManager._load_sandbox(venv_path)`: build the
sandbox object from the sidecar metadata, defaulting the id to a fresh
uuid when the file is absent or lacks the key. -/
def load_sandbox (venv_path : String) (meta : Option SandboxMeta)
    (fresh : String) : Sandbox :=
  { id := (match meta with
           | some m => m.id.getD fresh
           | none => fresh)
    project_path := os_dirname venv_path
    venv_path := venv_path
    python_path := venv_path ++ "/bin/python"
    created_at := (match meta with
                   | some m => m.created_at
                   | none => none)
    status := "ready" }

/-- The fresh-creation tail of `create_sandbox` (venv creation, pip
upgrade, package install, metadata write, cache update). `removed` records
whether the corrupted-venv `shutil.rmtree` ran earlier in this call. -/
def create_sandbox_fresh (st : List (String × Sandbox)) (fs : ProjFS)
    (eff : SandboxEffects) (project_path : String) (packages : List String)
    (removed : Bool) : Except ExecError SandboxResult :=
  if ¬ eff.venv_create_ok then
    .error (.sandboxError "Failed to create virtual environment")
  else if packages ≠ [] ∧ ¬ eff.pip_install_ok then
    .error (.sandboxError "Failed to install packages")
  else
    let sandbox : Sandbox :=
      { id := eff.fresh_id
        project_path := project_path
        venv_path := venv_path_of project_path
        python_path := python_path_of project_path
        created_at := some eff.now
        status := "ready" }
    .ok { sandbox := sandbox
          cache := (project_path, sandbox) :: st
          fs := { fs with venv_exists := true, python_exists := true,
                          metadata := some { id := some eff.fresh_id,
                                             created_at := some eff.now } }
          events := { invoked_creation := true, removed_venv := removed,
                      loaded_metadata := false } }

/-- The on-disk inspection part of `create_sandbox`: load a valid venv,
or remove a corrupted one (`.venv` present, interpreter missing) and
recreate from scratch. -/
def create_sandbox_disk (st : List (String × Sandbox)) (fs : ProjFS)
    (eff : SandboxEffects) (project_path : String) (packages : List String) :
    Except ExecError SandboxResult :=
  if fs.venv_exists then
    if fs.python_exists then
      let sandbox := load_sandbox (venv_path_of project_path) fs.metadata eff.fresh_id
      .ok { sandbox := sandbox
            cache := (project_path, sandbox) :: st
            fs := fs
            events := { invoked_creation := false, removed_venv := false,
                        loaded_metadata := fs.metadata.isSome } }
    else
      create_sandbox_fresh st
        { fs with venv_exists := false, python_exists := false, metadata := none }
        eff project_path packages true
  else
    create_sandbox_fresh st fs eff project_path packages false

/-- Embedding of `SandboxManager.create_sandbox(project_path, options)`
from `services/sandbox_service.py`. `st` is the in-memory cache,
`fs` the on-disk state at the canonical project path, `eff` the outcomes
of this call's external effects, `packages` is `options.get("packages",
[])`. The cached sandbox is revalidated by checking that the interpreter
executable still exists (`_validate_sandbox`); a cached entry for a
project always carries that project's venv interpreter path, so the check
reads `fs.python_exists`. -/
def create_sandbox (rp : String → String) (st : List (String × Sandbox))
    (fs : ProjFS) (eff : SandboxEffects) (project_path0 : String)
    (packages : List String) : Except ExecError SandboxResult :=
  let real := rp project_path0
  if ¬ fs.project_exists then
    .error (.pathValidationError ("Project path does not exist: " ++ project_path0))
  else if ¬ fs.project_is_dir then
    .error (.pathValidationError ("Project path is not a directory: " ++ project_path0))
  else
    match lookup_cache st real with
    | some sandbox =>
      if fs.python_exists then
        .ok { sandbox := sandbox, cache := st, fs := fs
              events := { invoked_creation := false, removed_venv := false,
                          loaded_metadata := false } }
      else
        create_sandbox_disk st fs eff real packages
    | none => create_sandbox_disk st fs eff real packages

/-- Outcome of the single `subprocess.run` call of `execute_code`:
normal completion with exit status and captured output, a
`subprocess.TimeoutExpired` with the partial stdout the exception carries
(if any), or any other spawn/IO exception. -/
inductive RunOutcome where
  | completed (returncode : Int) (stdout : String) (stderr : String)
  | timedOut (part_stdout : Option String)
  | spawnFailed (msg : String)
deriving DecidableEq, Repr

/-- The child-process invocation handed to `subprocess.run`: argument
vector, working directory, and environment map. -/
structure SpawnSpec where
  cmd : List String
  cwd : String
  env : List (String × String)
deriving DecidableEq, Repr

/-- The `ExecuteResult` response model (`models/responses.py`). -/
structure ExecuteResult where
  success : Bool
  exit_code : Int
  stdout : String
  stderr : String
  duration_ms : Nat
  files_modified : List String
  timed_out : Bool
deriving DecidableEq, Repr

/-- Ambient state consulted by one `execute_code` call: filesystem
predicates, the project tree at the before- and after-snapshot instants,
the host process environment, and the measured wall-clock duration. -/
structure ExecFS where
  path_exists : String → Bool
  is_dir : String → Bool
  tree_before : Option FSTree
  tree_after : Option FSTree
  host_env : List (String × String)
  duration_ms : Nat

/-- The `options` dict of `execute_code`: `options.get("timeout", 30)`
and `options.get("working_dir")`. -/
structure ExecOptions where
  timeout : Option Nat
  working_dir : Option String
deriving DecidableEq, Repr

/-- Working-directory resolution step of `execute_code`: confine the
requested directory under the validated project path, mapping a
`PathValidationError` to `ExecutionSecurityError` and a missing directory
to `ExecutionError`. Without a `working_dir` option the project root is
used. -/
def resolve_working_dir (rp : String → String) (is_dir : String → Bool)
    (proj : String) (options : ExecOptions) : Except ExecError String :=
  match options.working_dir with
  | none => .ok proj
  | some w =>
    match validate_path rp w proj with
    | .error e => .error (.executionSecurityError e.msg)
    | .ok d =>
      if ¬ is_dir d then
        .error (.executionError ("Working directory does not exist: " ++ w))
      else
        .ok d

/-- Assembly of the `ExecuteResult` from a finished run: truncation of
both streams, the after-snapshot, the diff, and
`success = exit_code == 0 and not timed_out`. -/
def finish_result (fs : ExecFS) (ec : Int) (out err : String) (t_o : Bool)
    (files_before : List (String × Nat)) : ExecuteResult :=
  { success := ec == 0 && !t_o
    exit_code := ec
    stdout := truncate_output out
    stderr := truncate_output err
    duration_ms := fs.duration_ms
    files_modified := diff_files files_before (snapshot_files fs.tree_after)
    timed_out := t_o }

/-- Embedding of `execute_code(code, language, project_path, options)`
from `services/execution_service.py`. The single subprocess outcome is the
`outcome` parameter; the returned pair exposes the spawn invocation next
to the result so that theorems can speak about what would be handed to
the child. The steps follow the source order: blank-code and language
checks, project validation, working-directory confinement, restricted
environment construction, before-snapshot, command construction, run,
truncation, after-snapshot and diff. -/
def execute_code (rp : String → String) (fs : ExecFS) (outcome : RunOutcome)
    (code : String) (language : String) (project_path : String)
    (options : ExecOptions) : Except ExecError (SpawnSpec × ExecuteResult) :=
  if code_is_blank code then
    .error (.executionError "Empty code")
  else if ¬ (language = "python" ∨ language = "shell") then
    .error (.executionError ("Unsupported language: " ++ language))
  else
    match validate_project_path rp fs.path_exists fs.is_dir project_path with
    | .error e => .error e
    | .ok proj =>
      match resolve_working_dir rp fs.is_dir proj options with
      | .error e => .error e
      | .ok working_dir =>
        let env := create_sandbox_env fs.host_env proj
        let timeout := options.timeout.getD 30
        let files_before := snapshot_files fs.tree_before
        let cmd := if language = "python"
                   then ["python3", "-c", code]
                   else ["bash", "-c", code]
        let spec : SpawnSpec := { cmd := cmd, cwd := working_dir, env := env }
        match outcome with
        | .spawnFailed m => .error (.executionError ("Execution failed: " ++ m))
        | .completed ec out err =>
          .ok (spec, finish_result fs ec out err false files_before)
        | .timedOut p =>
          .ok (spec, finish_result fs (-1) (p.getD "") (timeout_msg timeout) true files_before)

/-- Trivial filesystem for concrete runs: everything exists, everything is
a directory, both snapshots see an unwalkable tree (empty snapshot), no
host environment, measured duration 5 ms. -/
def fs_plain : ExecFS :=
  { path_exists := fun _ => true
    is_dir := fun _ => true
    tree_before := none
    tree_after := none
    host_env := []
    duration_ms := 5 }

/-- Empty options dict: default timeout 30, no working_dir. -/
def opts_none : ExecOptions := { timeout := none, working_dir := none }

/-- The spawn invocation produced for `execute_code("print(1)", "python",
"/p", {})` under `fs_plain` with identity canonicalization. -/
def spec_w : SpawnSpec :=
  { cmd := ["python3", "-c", "print(1)"]
    cwd := "/p"
    env := create_sandbox_env [] "/p" }

/-- Result of the concrete completed run with stdout "hi". -/
def res_w : ExecuteResult :=
  { success := true, exit_code := 0, stdout := "hi", stderr := ""
    duration_ms := 5, files_modified := [], timed_out := false }

/-- Result of the concrete timed-out run (no partial stdout). -/
def res_t : ExecuteResult :=
  { success := false, exit_code := -1, stdout := ""
    stderr := truncate_output (timeout_msg 30)
    duration_ms := 5, files_modified := [], timed_out := true }

/-- Result of the concrete completed run with empty output. -/
def res_empty : ExecuteResult :=
  { success := true, exit_code := 0, stdout := "", stderr := ""
    duration_ms := 5, files_modified := [], timed_out := false }

/-- A 100001-code-point child stdout of two-byte characters. -/
def cex_big : String := String.mk (List.replicate 100001 'é')

/-- Result of the concrete completed run whose stdout was `cex_big`. -/
def res_big : ExecuteResult :=
  { success := true, exit_code := 0, stdout := truncate_output cex_big
    stderr := "", duration_ms := 5, files_modified := [], timed_out := false }

/-- A canonicalization with one symlink-like resolution: the traversal
`/p/../etc` canonicalizes to `/etc`; every other path is already
canonical. -/
def rp_ex : String → String :=
  fun s => if s = "/p/../etc" then "/etc" else s

/-- Filesystem in which only `/p` is a directory. -/
def fs_ex : ExecFS :=
  { path_exists := fun _ => true
    is_dir := fun s => s == "/p"
    tree_before := none
    tree_after := none
    host_env := []
    duration_ms := 0 }

/-- On-disk project state with a ready venv and a persisted sidecar. -/
def fs_ready : ProjFS :=
  { project_exists := true, project_is_dir := true
    venv_exists := true, python_exists := true
    metadata := some { id := some "sb-0", created_at := some "t0" } }

/-- On-disk project state with a corrupted venv: directory present,
interpreter executable missing. -/
def fs_corrupt : ProjFS :=
  { project_exists := true, project_is_dir := true
    venv_exists := true, python_exists := false
    metadata := none }

/-- Effects of a first sandbox-manager call. -/
def eff_a : SandboxEffects :=
  { fresh_id := "uuid-a", now := "ta"
    venv_create_ok := true, pip_upgrade_ok := true, pip_install_ok := true }

/-- Effects of a second sandbox-manager call. -/
def eff_b : SandboxEffects :=
  { fresh_id := "uuid-b", now := "tb"
    venv_create_ok := true, pip_upgrade_ok := true, pip_install_ok := true }

/-! Helper lemmas. -/

/-- Lookup of the most recently inserted cache key. -/
theorem lookup_cache_cons_self (k : String) (v : Sandbox)
    (st : List (String × Sandbox)) : lookup_cache ((k, v) :: st) k = some v := by
  simp [lookup_cache]

/-- Erasing files whose metadata read fails does not change the entries
`filterMap` extracts from a directory's file list. -/
theorem filterMap_mtime_filter (base : String)
    (files : List (String × Option Nat)) :
    (files.filter (fun fm => fm.2.isSome)).filterMap
        (fun fm => fm.2.map (fun m => (rel_join base fm.1, m))) =
      files.filterMap (fun fm => fm.2.map (fun m => (rel_join base fm.1, m))) := by
  induction files with
  | nil => rfl
  | cons fm rest ih =>
    cases h : fm.2 with
    | none => simp [List.filter_cons, List.filterMap_cons, h, ih]
    | some m => simp [List.filter_cons, List.filterMap_cons, h, ih]

mutual
/-- Snapshotting a tree ignores exactly the files whose metadata read
fails: the walk of the erased tree produces the same entries. -/
theorem snapshotTree_eraseErrors (base : String) (t : FSTree) :
    snapshotTree base (eraseErrorsTree t) = snapshotTree base t := by
  cases t with
  | mk subdirs files =>
    simp only [eraseErrorsTree, snapshotTree]
    rw [filterMap_mtime_filter, snapshotForest_eraseErrors base subdirs]

/-- Forest version of `snapshotTree_eraseErrors`. -/
theorem snapshotForest_eraseErrors (base : String) (f : FSForest) :
    snapshotForest base (eraseErrorsForest f) = snapshotForest base f := by
  cases f with
  | nil => rfl
  | cons d t rest =>
    simp only [eraseErrorsForest, snapshotForest]
    rw [snapshotTree_eraseErrors (rel_join base d) t,
        snapshotForest_eraseErrors base rest]
end

/-- With no duplicate keys, a dict lookup finds exactly the list's
entry for that key. -/
theorem dict_lookup_some_iff {d : List (String × Nat)}
    (hn : (d.map Prod.fst).Nodup) {p : String} {m : Nat} :
    dict_lookup d p = some m ↔ (p, m) ∈ d := by
  induction d with
  | nil => simp [dict_lookup]
  | cons kv rest ih =>
    obtain ⟨k, v⟩ := kv
    rw [List.map_cons, List.nodup_cons] at hn
    obtain ⟨hknot, hrest⟩ := hn
    by_cases hk : k = p
    · subst hk
      rw [dict_lookup]
      rw [List.find?_cons_of_pos _ (by simp)]
      constructor
      · intro h
        have hm : v = m := by simpa using h
        subst hm
        exact List.mem_cons_self _ _
      · intro h
        rcases List.mem_cons.mp h with heq | hmem
        · injection heq with h1 h2
          simp [h2]
        · exact absurd (List.mem_map_of_mem Prod.fst hmem) hknot
    · rw [dict_lookup]
      rw [List.find?_cons_of_neg _ (by simpa using hk)]
      rw [← dict_lookup]
      rw [ih hrest]
      constructor
      · intro h
        exact List.mem_cons_of_mem _ h
      · intro h
        rcases List.mem_cons.mp h with heq | hmem
        · injection heq with h1 h2
          exact absurd h1.symm hk
        · exact hmem

/-! Claim theorems. -/

/-- C6: the restricted environment-variable map for the child process is
built in full as an explicit allow-list — fixed restrictive PATH, the
project path as HOME, empty PYTHONPATH, fixed locale variables and
blanked proxy variables — and for any two host process environments the
map produced for the same project path is identical: no host variable is
inherited. -/
theorem create_sandbox_env_allowlist :
    ∀ (host_env1 host_env2 : List (String × String)) (project_path : String),
      create_sandbox_env host_env1 project_path =
        create_sandbox_env host_env2 project_path ∧
      env_lookup (create_sandbox_env host_env1 project_path) "PATH" =
        some "/usr/bin:/bin:/usr/local/bin" ∧
      env_lookup (create_sandbox_env host_env1 project_path) "HOME" =
        some project_path ∧
      env_lookup (create_sandbox_env host_env1 project_path) "PYTHONPATH" =
        some "" ∧
      env_lookup (create_sandbox_env host_env1 project_path) "LANG" =
        some "C.UTF-8" ∧
      env_lookup (create_sandbox_env host_env1 project_path) "LC_ALL" =
        some "C.UTF-8" ∧
      env_lookup (create_sandbox_env host_env1 project_path) "http_proxy" =
        some "" ∧
      env_lookup (create_sandbox_env host_env1 project_path) "https_proxy" =
        some "" ∧
      ∀ k v, (k, v) ∈ create_sandbox_env host_env1 project_path →
        k ∈ ["PATH", "HOME", "PYTHONPATH", "PROJECT_ROOT", "LANG", "LC_ALL",
             "http_proxy", "https_proxy"] := by
  intro e1 e2 p
  refine ⟨rfl, rfl, ?_, rfl, rfl, rfl, ?_, ?_, ?_⟩
  · simp [create_sandbox_env, env_lookup]
  · simp [create_sandbox_env, env_lookup]
  · simp [create_sandbox_env, env_lookup]
  · intro k v h
    simp only [create_sandbox_env, List.mem_cons, List.not_mem_nil,
      or_false, Prod.mk.injEq] at h
    rcases h with ⟨h, -⟩ | ⟨h, -⟩ | ⟨h, -⟩ | ⟨h, -⟩ | ⟨h, -⟩ | ⟨h, -⟩ |
      ⟨h, -⟩ | ⟨h, -⟩ <;> subst h <;> simp

/-- C10: `snapshot_files` is total: a directory that cannot be walked at
all yields the empty snapshot, and files whose metadata read raises are
merely omitted — the snapshot equals that of the tree with those files
erased. No error input can make the snapshot anything other than the
defined (possibly empty) mapping. -/
theorem snapshot_files_total :
    snapshot_files none = [] ∧
      ∀ t : FSTree,
        snapshot_files (some (eraseErrorsTree t)) = snapshot_files (some t) := by
  refine ⟨rfl, ?_⟩
  intro t
  simp only [snapshot_files]
  exact snapshotTree_eraseErrors "" t

/-- C4: the `files_modified` list equals exactly the set of paths present
in the after-snapshot that are absent from the before-snapshot or carry a
different modification timestamp, sorted lexicographically and without
duplicates; a path present only in the before-snapshot (deleted during
execution) never appears. -/
theorem diff_files_correct (before after : List (String × Nat))
    (hafter : (after.map Prod.fst).Nodup) :
    (∀ p : String, p ∈ diff_files before after ↔
        ∃ m, dict_lookup after p = some m ∧ dict_lookup before p ≠ some m) ∧
    List.Sorted (· ≤ ·) (diff_files before after) ∧
    (diff_files before after).Nodup ∧
    (∀ p : String, dict_lookup after p = none → p ∉ diff_files before after) := by
  have hpred_iff : ∀ (p : String) (m : Nat),
      diff_pred before (p, m) = true ↔ dict_lookup before p ≠ some m := by
    intro p m
    unfold diff_pred
    cases hb : dict_lookup before p with
    | none => simp
    | some m' => simp
  have hmem : ∀ p : String, p ∈ diff_files before after ↔
      ∃ m, dict_lookup after p = some m ∧ dict_lookup before p ≠ some m := by
    intro p
    rw [diff_files, (List.perm_insertionSort _ _).mem_iff, List.mem_map]
    constructor
    · rintro ⟨⟨q, m⟩, hq, rfl⟩
      rw [List.mem_filter] at hq
      exact ⟨m, (dict_lookup_some_iff hafter).mpr hq.1, (hpred_iff q m).mp hq.2⟩
    · rintro ⟨m, hafterm, hbefore⟩
      refine ⟨(p, m), ?_, rfl⟩
      rw [List.mem_filter]
      exact ⟨(dict_lookup_some_iff hafter).mp hafterm, (hpred_iff p m).mpr hbefore⟩
  refine ⟨hmem, ?_, ?_, ?_⟩
  · exact List.sorted_insertionSort _ _
  · refine ((List.perm_insertionSort _ _).nodup_iff).mpr ?_
    exact ((List.filter_sublist after).map Prod.fst).nodup hafter
  · intro p hnone hp
    obtain ⟨m, hm, -⟩ := (hmem p).mp hp
    rw [hnone] at hm
    exact Option.noConfusion hm

/-- Witness for C4 at a concrete pair of snapshots: path `b` is new in
the after-snapshot, path `a` is unchanged. -/
theorem diff_files_correct_witness :
    ("b" ∈ diff_files [("a", 1)] [("a", 1), ("b", 5)] ↔
      ∃ m, dict_lookup [("a", 1), ("b", 5)] "b" = some m ∧
        dict_lookup [("a", 1)] "b" ≠ some m) ∧
    List.Sorted (· ≤ ·) (diff_files [("a", 1)] [("a", 1), ("b", 5)]) :=
  ⟨(diff_files_correct [("a", 1)] [("a", 1), ("b", 5)] (by decide)).1 "b",
   (diff_files_correct [("a", 1)] [("a", 1), ("b", 5)] (by decide)).2.1⟩

/-- C7: acquiring the sandbox is idempotent per project. When the
interpreter executable is present on disk, two successive
`create_sandbox` calls (with arbitrary cache contents, fresh uuids and
requested packages) both succeed without ever invoking the
venv-creation primitive, and the second call returns the very sandbox of
the first, in particular with the same stable `id`. -/
theorem create_sandbox_idempotent (rp : String → String)
    (st : List (String × Sandbox)) (fs : ProjFS) (eff eff2 : SandboxEffects)
    (project_path : String) (packages packages2 : List String)
    (hex : fs.project_exists = true) (hdir : fs.project_is_dir = true)
    (hvenv : fs.venv_exists = true) (hpy : fs.python_exists = true) :
    ∃ r1 r2 : SandboxResult,
      create_sandbox rp st fs eff project_path packages = .ok r1 ∧
      create_sandbox rp r1.cache r1.fs eff2 project_path packages2 = .ok r2 ∧
      r1.events.invoked_creation = false ∧
      r2.events.invoked_creation = false ∧
      r2.sandbox = r1.sandbox ∧
      r2.sandbox.id = r1.sandbox.id := by
  cases hcl : lookup_cache st (rp project_path) with
  | some sb =>
    have h1 : create_sandbox rp st fs eff project_path packages =
        .ok ⟨sb, st, fs, ⟨false, false, false⟩⟩ := by
      simp [create_sandbox, hex, hdir, hcl, hpy]
    have h2 : create_sandbox rp st fs eff2 project_path packages2 =
        .ok ⟨sb, st, fs, ⟨false, false, false⟩⟩ := by
      simp [create_sandbox, hex, hdir, hcl, hpy]
    exact ⟨_, _, h1, h2, rfl, rfl, rfl, rfl⟩
  | none =>
    have h1 : create_sandbox rp st fs eff project_path packages =
        .ok ⟨load_sandbox (venv_path_of (rp project_path)) fs.metadata eff.fresh_id,
             (rp project_path,
              load_sandbox (venv_path_of (rp project_path)) fs.metadata eff.fresh_id) :: st,
             fs, ⟨false, false, fs.metadata.isSome⟩⟩ := by
      simp [create_sandbox, create_sandbox_disk, hex, hdir, hcl, hvenv, hpy]
    have h2 : create_sandbox rp
        ((rp project_path,
          load_sandbox (venv_path_of (rp project_path)) fs.metadata eff.fresh_id) :: st)
        fs eff2 project_path packages2 =
        .ok ⟨load_sandbox (venv_path_of (rp project_path)) fs.metadata eff.fresh_id,
             (rp project_path,
              load_sandbox (venv_path_of (rp project_path)) fs.metadata eff.fresh_id) :: st,
             fs, ⟨false, false, false⟩⟩ := by
      simp [create_sandbox, hex, hdir, lookup_cache_cons_self, hpy]
    exact ⟨_, _, h1, h2, rfl, rfl, rfl, rfl⟩

/-- Witness for C7: a ready on-disk venv under `/p`, empty cache, two
calls with different fresh uuids — neither invokes creation and the id is
stable. -/
theorem create_sandbox_idempotent_witness :
    ∃ r1 r2 : SandboxResult,
      create_sandbox (fun s => s) [] fs_ready eff_a "/p" [] = .ok r1 ∧
      create_sandbox (fun s => s) r1.cache r1.fs eff_b "/p" [] = .ok r2 ∧
      r1.events.invoked_creation = false ∧
      r2.events.invoked_creation = false ∧
      r2.sandbox = r1.sandbox ∧
      r2.sandbox.id = r1.sandbox.id :=
  create_sandbox_idempotent (fun s => s) [] fs_ready eff_a eff_b "/p" [] []
    rfl rfl rfl rfl

/-- C8: when the venv directory exists but its interpreter executable is
missing, `create_sandbox` treats the environment as corrupted: it removes
the venv directory entirely, creates a fresh environment (with a fresh
id and creation timestamp), and never reads the sidecar metadata of the
corrupted directory. -/
theorem create_sandbox_corrupt_recreate (rp : String → String)
    (st : List (String × Sandbox)) (fs : ProjFS) (eff : SandboxEffects)
    (project_path : String) (packages : List String)
    (hex : fs.project_exists = true) (hdir : fs.project_is_dir = true)
    (hvenv : fs.venv_exists = true) (hpy : fs.python_exists = false)
    (hok : eff.venv_create_ok = true)
    (hinst : packages = [] ∨ eff.pip_install_ok = true) :
    ∃ r : SandboxResult,
      create_sandbox rp st fs eff project_path packages = .ok r ∧
      r.events.removed_venv = true ∧
      r.events.invoked_creation = true ∧
      r.events.loaded_metadata = false ∧
      r.sandbox.id = eff.fresh_id ∧
      r.sandbox.created_at = some eff.now := by
  have hfresh : create_sandbox_fresh st
      { fs with venv_exists := false, python_exists := false, metadata := none }
      eff (rp project_path) packages true =
      .ok ⟨{ id := eff.fresh_id
             project_path := rp project_path
             venv_path := venv_path_of (rp project_path)
             python_path := python_path_of (rp project_path)
             created_at := some eff.now
             status := "ready" },
           (rp project_path,
            { id := eff.fresh_id
              project_path := rp project_path
              venv_path := venv_path_of (rp project_path)
              python_path := python_path_of (rp project_path)
              created_at := some eff.now
              status := "ready" }) :: st,
           { fs with venv_exists := true, python_exists := true,
                     metadata := some { id := some eff.fresh_id,
                                        created_at := some eff.now } },
           ⟨true, true, false⟩⟩ := by
    rcases hinst with hp | hp
    · simp [create_sandbox_fresh, hok, hp]
    · simp [create_sandbox_fresh, hok, hp]
  have hdisk : create_sandbox_disk st fs eff (rp project_path) packages =
      create_sandbox_fresh st
        { fs with venv_exists := false, python_exists := false, metadata := none }
        eff (rp project_path) packages true := by
    simp [create_sandbox_disk, hvenv, hpy]
  have hstep : create_sandbox rp st fs eff project_path packages =
      create_sandbox_disk st fs eff (rp project_path) packages := by
    cases hcl : lookup_cache st (rp project_path) with
    | some sb => simp [create_sandbox, hex, hdir, hcl, hpy]
    | none => simp [create_sandbox, hex, hdir, hcl]
  rw [hdisk, hfresh] at hstep
  exact ⟨_, hstep, rfl, rfl, rfl, rfl, rfl⟩

/-- Witness for C8: a corrupted venv under `/p` (directory present,
interpreter missing) is removed and rebuilt with the fresh uuid. -/
theorem create_sandbox_corrupt_recreate_witness :
    ∃ r : SandboxResult,
      create_sandbox (fun s => s) [] fs_corrupt eff_a "/p" [] = .ok r ∧
      r.events.removed_venv = true ∧
      r.events.invoked_creation = true ∧
      r.events.loaded_metadata = false ∧
      r.sandbox.id = eff_a.fresh_id ∧
      r.sandbox.created_at = some eff_a.now :=
  create_sandbox_corrupt_recreate (fun s => s) [] fs_corrupt eff_a "/p" []
    rfl rfl rfl rfl rfl (Or.inl rfl)

/-- A successful project validation returns the canonicalized project
path with both filesystem checks passed. -/
theorem validate_project_path_ok_inv {rp : String → String}
    {pe isd : String → Bool} {project_path proj : String}
    (h : validate_project_path rp pe isd project_path = .ok proj) :
    proj = rp project_path ∧ pe (rp project_path) = true ∧
      isd (rp project_path) = true := by
  rw [validate_project_path] at h
  split at h
  · exact absurd h (by simp)
  · split at h
    · exact absurd h (by simp)
    · rename_i hex hdir
      cases h
      exact ⟨rfl, by simpa using hex, by simpa using hdir⟩

/-- A successful path validation returns the canonical join, which equals
the canonical boundary or extends it by a separator. -/
theorem validate_path_ok_inv {rp : String → String} {path base_dir r : String}
    (h : validate_path rp path base_dir = .ok r) :
    r = rp (os_join base_dir path) ∧
      (r = rp base_dir ∨ str_startswith r (rp base_dir ++ "/") = true) := by
  rw [validate_path] at h
  split at h
  · exact absurd h (by simp)
  · rename_i hcond
    cases h
    refine ⟨rfl, ?_⟩
    by_cases hp : str_startswith (rp (os_join base_dir path)) (rp base_dir ++ "/") = true
    · exact Or.inr hp
    · left
      by_contra hne
      exact hcond ⟨by simpa using hp, hne⟩

/-- A successful working-directory resolution yields the project root
itself or a path confined by `validate_path`. -/
theorem resolve_working_dir_ok_inv {rp : String → String}
    {isd : String → Bool} {proj : String} {options : ExecOptions}
    {wd : String}
    (h : resolve_working_dir rp isd proj options = .ok wd) :
    wd = proj ∨ ∃ w, validate_path rp w proj = .ok wd ∧ isd wd = true := by
  rw [resolve_working_dir] at h
  split at h
  · cases h
    exact Or.inl rfl
  · rename_i w hw
    split at h
    · exact absurd h (by simp)
    · rename_i d hd
      split at h
      · exact absurd h (by simp)
      · rename_i hdir
        cases h
        exact Or.inr ⟨w, hd, by simpa using hdir⟩

/-- Inversion of a successful `execute_code` call: the language is one of
the two supported ones, project validation and working-directory
confinement succeeded, the spawn invocation is the inline-code command
with the confined working directory and the restricted environment, and
the result is assembled by `finish_result` from a completed or timed-out
run. -/
theorem execute_code_ok_inv {rp : String → String} {fs : ExecFS}
    {outcome : RunOutcome} {code language project_path : String}
    {options : ExecOptions} {spec : SpawnSpec} {res : ExecuteResult}
    (h : execute_code rp fs outcome code language project_path options =
      .ok (spec, res)) :
    (language = "python" ∨ language = "shell") ∧
    ∃ proj working_dir,
      validate_project_path rp fs.path_exists fs.is_dir project_path = .ok proj ∧
      resolve_working_dir rp fs.is_dir proj options = .ok working_dir ∧
      spec = { cmd := if language = "python" then ["python3", "-c", code]
                      else ["bash", "-c", code]
               cwd := working_dir
               env := create_sandbox_env fs.host_env proj } ∧
      ((∃ ec out err, outcome = .completed ec out err ∧
          res = finish_result fs ec out err false (snapshot_files fs.tree_before)) ∨
       (∃ p, outcome = .timedOut p ∧
          res = finish_result fs (-1) (p.getD "")
            (timeout_msg (options.timeout.getD 30)) true
            (snapshot_files fs.tree_before))) := by
  simp only [execute_code] at h
  split at h
  · exact absurd h (by simp)
  · split at h
    · exact absurd h (by simp)
    · rename_i hblank hlang
      refine ⟨not_not.mp hlang, ?_⟩
      split at h
      · exact absurd h (by simp)
      · rename_i proj hproj
        split at h
        · exact absurd h (by simp)
        · rename_i wd hwd
          refine ⟨proj, wd, hproj, hwd, ?_⟩
          split at h
          · exact absurd h (by simp)
          · rename_i ec out err
            rw [Except.ok.injEq, Prod.mk.injEq] at h
            exact ⟨h.1.symm, Or.inl ⟨ec, out, err, rfl, h.2.symm⟩⟩
          · rename_i p
            rw [Except.ok.injEq, Prod.mk.injEq] at h
            exact ⟨h.1.symm, Or.inr ⟨p, rfl, h.2.symm⟩⟩

/-- C1: `validate_path` either returns the canonicalized join of boundary
and candidate — which then equals the canonical boundary or begins with
the canonical boundary followed by the separator — or raises
`PathValidationError`; consequently the working directory handed to the
spawned child by `execute_code` never lies outside the canonical project
path, for every candidate including `..` traversal, absolute paths and
symlinks (all resolved by the canonicalization `rp`). `hrp` is
idempotence of `os.path.realpath`: a canonical path canonicalizes to
itself. -/
theorem validate_path_confines (rp : String → String)
    (hrp : ∀ x, rp (rp x) = rp x) :
    (∀ path base_dir : String,
        (∃ r, validate_path rp path base_dir = .ok r) ∨
        (∃ m, validate_path rp path base_dir = .error (.pathValidationError m))) ∧
    (∀ path base_dir r : String, validate_path rp path base_dir = .ok r →
        r = rp (os_join base_dir path) ∧
        (r = rp base_dir ∨ str_startswith r (rp base_dir ++ "/") = true)) ∧
    (∀ (fs : ExecFS) (outcome : RunOutcome)
        (code language project_path : String) (options : ExecOptions)
        (spec : SpawnSpec) (res : ExecuteResult),
        execute_code rp fs outcome code language project_path options =
          .ok (spec, res) →
        spec.cwd = rp project_path ∨
          str_startswith spec.cwd (rp project_path ++ "/") = true) := by
  refine ⟨?_, ?_, ?_⟩
  · intro path base_dir
    rw [validate_path]
    split
    · exact Or.inr ⟨_, rfl⟩
    · exact Or.inl ⟨_, rfl⟩
  · intro path base_dir r h
    exact validate_path_ok_inv h
  · intro fs outcome code language project_path options spec res h
    obtain ⟨-, proj, wd, hproj, hwd, hspec, -⟩ := execute_code_ok_inv h
    obtain ⟨hproj_eq, -, -⟩ := validate_project_path_ok_inv hproj
    subst hproj_eq
    subst hspec
    rcases resolve_working_dir_ok_inv hwd with hwdp | ⟨w, hvp, -⟩
    · exact Or.inl hwdp
    · obtain ⟨-, hdisj⟩ := validate_path_ok_inv hvp
      rw [hrp project_path] at hdisj
      exact hdisj

/-- Witness for C1 at boundary `/p`, candidate `sub` and identity
canonicalization: the validated path is the join and extends the
boundary. -/
theorem validate_path_confines_witness :
    "/p/sub" = os_join "/p" "sub" ∧
      ("/p/sub" = "/p" ∨ str_startswith "/p/sub" ("/p" ++ "/") = true) :=
  (validate_path_confines (fun s => s) (fun x => rfl)).2.1 "sub" "/p" "/p/sub" rfl

/-- C9: with a `working_dir` option, the two failure modes are classified
distinctly and in neither is a child process spawned (the result is the
same error for every possible run outcome): a confinement failure raises
`ExecutionSecurityError` with the validator's message, while a confined
but non-existing directory raises `ExecutionError`. -/
theorem working_dir_error_classification (rp : String → String) (fs : ExecFS)
    (code language project_path proj w : String) (options : ExecOptions)
    (hcode : code_is_blank code = false)
    (hlang : language = "python" ∨ language = "shell")
    (hproj : validate_project_path rp fs.path_exists fs.is_dir project_path =
      .ok proj)
    (hw : options.working_dir = some w) :
    (∀ m, validate_path rp w proj = .error (.pathValidationError m) →
        ∀ outcome : RunOutcome,
          execute_code rp fs outcome code language project_path options =
            .error (.executionSecurityError m)) ∧
    (∀ d, validate_path rp w proj = .ok d → fs.is_dir d = false →
        ∀ outcome : RunOutcome,
          execute_code rp fs outcome code language project_path options =
            .error (.executionError ("Working directory does not exist: " ++ w))) := by
  constructor
  · intro m hm outcome
    have hres : resolve_working_dir rp fs.is_dir proj options =
        .error (.executionSecurityError m) := by
      simp [resolve_working_dir, hw, hm, ExecError.msg]
    simp [execute_code, hcode, not_not.mpr hlang, hproj, hres]
  · intro d hd hdir outcome
    have hres : resolve_working_dir rp fs.is_dir proj options =
        .error (.executionError ("Working directory does not exist: " ++ w)) := by
      simp [resolve_working_dir, hw, hd, hdir]
    simp [execute_code, hcode, not_not.mpr hlang, hproj, hres]

/-- Witness for C9: under the canonicalization resolving `/p/../etc` to
`/etc`, the traversal candidate `../etc` is rejected as a security error,
while the in-boundary but absent directory `miss` is an execution error;
the spawn outcome parameter is irrelevant in both cases. -/
theorem working_dir_error_classification_witness :
    execute_code rp_ex fs_ex (.completed 0 "" "") "print(1)" "python" "/p"
        { timeout := none, working_dir := some "../etc" } =
      .error (.executionSecurityError
        "Path '../etc' resolves outside project directory") ∧
    execute_code rp_ex fs_ex (.completed 0 "" "") "print(1)" "python" "/p"
        { timeout := none, working_dir := some "miss" } =
      .error (.executionError "Working directory does not exist: miss") :=
  ⟨(working_dir_error_classification rp_ex fs_ex "print(1)" "python" "/p" "/p"
      "../etc" { timeout := none, working_dir := some "../etc" }
      rfl (Or.inl rfl) rfl rfl).1
      "Path '../etc' resolves outside project directory" rfl (.completed 0 "" ""),
   (working_dir_error_classification rp_ex fs_ex "print(1)" "python" "/p" "/p"
      "miss" { timeout := none, working_dir := some "miss" }
      rfl (Or.inl rfl) rfl rfl).2
      "/p/miss" rfl rfl (.completed 0 "" "")⟩

/-- C3: an execution that completes normally reports
`success == (exit_code == 0)` and no timeout; an execution that exceeds
the timeout reports `timed_out = true`, `success = false`, the sentinel
exit code `-1`, and the synthesized stderr message carrying the timeout
value. -/
theorem execute_result_status (rp : String → String) (fs : ExecFS)
    (code language project_path : String) (options : ExecOptions)
    (spec : SpawnSpec) (res : ExecuteResult) :
    (∀ (ec : Int) (out err : String),
        execute_code rp fs (.completed ec out err) code language project_path
            options = .ok (spec, res) →
        res.timed_out = false ∧ res.exit_code = ec ∧
          res.success = (res.exit_code == 0)) ∧
    (∀ p : Option String,
        execute_code rp fs (.timedOut p) code language project_path options =
          .ok (spec, res) →
        res.timed_out = true ∧ res.success = false ∧ res.exit_code = -1 ∧
          res.stderr = truncate_output (timeout_msg (options.timeout.getD 30))) := by
  constructor
  · intro ec out err h
    obtain ⟨-, proj, wd, -, -, -, houtcome⟩ := execute_code_ok_inv h
    rcases houtcome with ⟨ec', out', err', heq, hres⟩ | ⟨p, heq, -⟩
    · injection heq with h1 h2 h3
      subst h1; subst h2; subst h3
      subst hres
      refine ⟨rfl, rfl, ?_⟩
      simp [finish_result]
    · exact absurd heq (by simp)
  · intro p h
    obtain ⟨-, proj, wd, -, -, -, houtcome⟩ := execute_code_ok_inv h
    rcases houtcome with ⟨ec', out', err', heq, -⟩ | ⟨p', heq, hres⟩
    · exact absurd heq (by simp)
    · injection heq with h1
      subst h1
      subst hres
      exact ⟨rfl, rfl, rfl, rfl⟩

/-- Witness for C3: a concrete completed run with exit code 0, and a
concrete timed-out run under the default 30-second timeout. -/
theorem execute_result_status_witness :
    (res_w.timed_out = false ∧ res_w.exit_code = 0 ∧
      res_w.success = (res_w.exit_code == 0)) ∧
    (res_t.timed_out = true ∧ res_t.success = false ∧ res_t.exit_code = -1 ∧
      res_t.stderr = truncate_output (timeout_msg (opts_none.timeout.getD 30))) :=
  ⟨(execute_result_status (fun s => s) fs_plain "print(1)" "python" "/p"
      opts_none spec_w res_w).1 0 "hi" "" rfl,
   (execute_result_status (fun s => s) fs_plain "print(1)" "python" "/p"
      opts_none spec_w res_t).2 none rfl⟩

/-- Counterexample to C2: on a concrete successful python execution the
constructed invocation hands the code to the system interpreter
`python3`, not to the managed environment's interpreter
`/p/.venv/bin/python` (the `python_path` the Environment Manager would
record for project `/p`); `execute_code` builds no sandbox at all — only
the environment-variable map. -/
theorem execute_system_interpreter_cex :
    execute_code (fun s => s) fs_plain (.completed 0 "" "") "print(1)"
        "python" "/p" opts_none = .ok (spec_w, res_empty) ∧
    spec_w.cmd = ["python3", "-c", "print(1)"] ∧
    spec_w.cmd.head? = some "python3" ∧
    "python3" ≠ python_path_of "/p" :=
  ⟨rfl, rfl, rfl, by decide⟩

/-- C2 as amended: for every successful `execute_code` call, the child
invocation passes the code inline to the system interpreter `python3`
(for python) or to `bash` (for shell) — not to the managed environment's
interpreter — and runs with the confined working directory and the
restricted environment-variable map built by the Environment Manager's
`create_sandbox_env`; the per-project Environment itself is never
acquired on this path. -/
theorem execute_invocation_amended (rp : String → String) (fs : ExecFS)
    (outcome : RunOutcome) (code language project_path : String)
    (options : ExecOptions) (spec : SpawnSpec) (res : ExecuteResult)
    (h : execute_code rp fs outcome code language project_path options =
      .ok (spec, res)) :
    ∃ proj working_dir,
      validate_project_path rp fs.path_exists fs.is_dir project_path = .ok proj ∧
      resolve_working_dir rp fs.is_dir proj options = .ok working_dir ∧
      spec.env = create_sandbox_env fs.host_env proj ∧
      spec.cwd = working_dir ∧
      ((language = "python" ∧ spec.cmd = ["python3", "-c", code]) ∨
       (language = "shell" ∧ spec.cmd = ["bash", "-c", code])) := by
  obtain ⟨hlang, proj, wd, hproj, hwd, hspec, -⟩ := execute_code_ok_inv h
  subst hspec
  refine ⟨proj, wd, hproj, hwd, rfl, rfl, ?_⟩
  rcases hlang with hpy | hsh
  · subst hpy
    left
    exact ⟨rfl, by simp⟩
  · subst hsh
    right
    refine ⟨rfl, ?_⟩
    rw [if_neg (show ¬("shell" = "python") by decide)]

/-- Witness for C2 as amended, at the concrete completed python run. -/
theorem execute_invocation_amended_witness :
    ∃ proj working_dir,
      validate_project_path (fun s => s) fs_plain.path_exists fs_plain.is_dir
          "/p" = .ok proj ∧
      resolve_working_dir (fun s => s) fs_plain.is_dir proj opts_none =
        .ok working_dir ∧
      spec_w.env = create_sandbox_env fs_plain.host_env proj ∧
      spec_w.cwd = working_dir ∧
      (("python" = "python" ∧ spec_w.cmd = ["python3", "-c", "print(1)"]) ∨
       ("python" = "shell" ∧ spec_w.cmd = ["bash", "-c", "print(1)"])) :=
  execute_invocation_amended (fun s => s) fs_plain (.completed 0 "hi" "")
    "print(1)" "python" "/p" opts_none spec_w res_w rfl

/-- UTF-8 length of a replicated character. -/
theorem utf8ByteLen_mk_replicate (n : Nat) (c : Char) :
    utf8ByteLen (String.mk (List.replicate n c)) = n * c.utf8Size := by
  simp [utf8ByteLen, List.map_replicate, List.sum_replicate, smul_eq_mul]

/-- Truncating the 100001-character two-byte stdout keeps exactly
100000 characters. -/
theorem truncate_output_cex_big :
    truncate_output cex_big = String.mk (List.replicate 100000 'é') := by
  have hmin : min MAX_OUTPUT_SIZE 100001 = 100000 := by
    simp only [MAX_OUTPUT_SIZE]
    omega
  show String.mk ((List.replicate 100001 'é').take MAX_OUTPUT_SIZE) =
    String.mk (List.replicate 100000 'é')
  rw [List.take_replicate, hmin]

/-- Counterexample to C5: the source truncates with `stdout[:100_000]`,
which bounds the number of code points, not bytes; a child that writes
100001 copies of a two-byte character yields a result whose stdout is
200000 UTF-8 bytes, exceeding the 100000-byte budget the claim states. -/
theorem output_truncation_bytes_cex :
    execute_code (fun s => s) fs_plain (.completed 0 cex_big "") "print(1)"
        "python" "/p" opts_none = .ok (spec_w, res_big) ∧
    MAX_OUTPUT_SIZE < utf8ByteLen res_big.stdout := by
  refine ⟨rfl, ?_⟩
  show MAX_OUTPUT_SIZE < utf8ByteLen (truncate_output cex_big)
  rw [truncate_output_cex_big, utf8ByteLen_mk_replicate]
  have hsz : Char.utf8Size 'é' = 2 := by decide
  rw [hsz]
  simp only [MAX_OUTPUT_SIZE]
  omega

/-- C5 as amended: the stdout and stderr fields of every execution result
are truncated to at most 100000 characters (code points) each — the
Python-level `s[:MAX_OUTPUT_SIZE]` bound — regardless of how much the
child writes; the UTF-8 byte length may exceed 100000 for non-ASCII
output. -/
theorem output_truncation_chars (rp : String → String) (fs : ExecFS)
    (outcome : RunOutcome) (code language project_path : String)
    (options : ExecOptions) (spec : SpawnSpec) (res : ExecuteResult)
    (h : execute_code rp fs outcome code language project_path options =
      .ok (spec, res)) :
    res.stdout.data.length ≤ MAX_OUTPUT_SIZE ∧
      res.stderr.data.length ≤ MAX_OUTPUT_SIZE := by
  obtain ⟨-, proj, wd, -, -, -, houtcome⟩ := execute_code_ok_inv h
  have hlen : ∀ s : String, (truncate_output s).data.length ≤ MAX_OUTPUT_SIZE := by
    intro s
    simp [truncate_output]
  rcases houtcome with ⟨ec, out, err, -, hres⟩ | ⟨p, -, hres⟩ <;> subst hres <;>
    exact ⟨hlen _, hlen _⟩

/-- Witness for C5 as amended, at the concrete completed run. -/
theorem output_truncation_chars_witness :
    res_w.stdout.data.length ≤ MAX_OUTPUT_SIZE ∧
      res_w.stderr.data.length ≤ MAX_OUTPUT_SIZE :=
  output_truncation_chars (fun s => s) fs_plain (.completed 0 "hi" "")
    "print(1)" "python" "/p" opts_none spec_w res_w rfl

/-- Witness for C6 at a concrete map entry: the PATH entry of the map for
project `/p` is on the allow-list. -/
theorem create_sandbox_env_allowlist_witness :
    "PATH" ∈ ["PATH", "HOME", "PYTHONPATH", "PROJECT_ROOT", "LANG", "LC_ALL",
              "http_proxy", "https_proxy"] :=
  (create_sandbox_env_allowlist [] [("SECRET", "x")] "/p").2.2.2.2.2.2.2.2
    "PATH" "/usr/bin:/bin:/usr/local/bin" (by simp [create_sandbox_env])
